import Mathlib

/-!
Verification of the DriveBuild criteria evaluator, verification scheduler,
AI handshake and message handlers, shallowly embedded from the Python
sources (src/types/criteria.py, src/simnode/sim_controller.py, src/start.py).
-/

namespace DriveBuild

/-- The three members of the `KPValue` enum (src/types/criteria.py, lines 7-13). -/
inductive KPValue
| TRUE
| FALSE
| UNKNOWN
deriving DecidableEq, Repr

/-- The Python runtime objects that appear during criteria evaluation:
plain booleans, the 1-tuples `(True,)` / `(False,)` that are the enum
*values* of `KPValue.TRUE` / `KPValue.FALSE` (note the trailing commas at
lines 11-12 of criteria.py), `None` (the enum value of `UNKNOWN`, and the
implicit return of a Python function that falls off its end), and the
enum *member* objects themselves. -/
inductive PyObj
| pyBool (b : Bool)
| tuple1 (b : Bool)
| pyNone
| member (v : KPValue)
deriving DecidableEq, Repr

/-- Python `==` on the objects above. Tuples and booleans compare
structurally; `None` equals only `None`; `Enum` does not override
`__eq__`, so enum members compare by identity, and a comparison between
objects of different kinds yields `False`. -/
def pyEq : PyObj → PyObj → Bool
| PyObj.pyBool a, PyObj.pyBool b => a == b
| PyObj.tuple1 a, PyObj.tuple1 b => a == b
| PyObj.pyNone, PyObj.pyNone => true
| PyObj.member v, PyObj.member w => v == w
| _, _ => false

/-- Python truthiness of the objects above: `None` is falsy, a non-empty
tuple is truthy, a bool is itself, and an enum member (no `__bool__` or
`__len__`) is truthy. -/
def pyTruthy : PyObj → Bool
| PyObj.pyBool b => b
| PyObj.tuple1 _ => true
| PyObj.pyNone => false
| PyObj.member _ => true

/-- `KPValue.value`: the `.value` attribute of each enum member, per the
member definitions `TRUE = True,` / `FALSE = False,` / `UNKNOWN = None`
(criteria.py lines 11-13). -/
def KPValue.value : KPValue → PyObj
| KPValue.TRUE => PyObj.tuple1 true
| KPValue.FALSE => PyObj.tuple1 false
| KPValue.UNKNOWN => PyObj.pyNone

/-- The enum member object itself, as produced by attribute access such as
`self.FALSE`. -/
def KPValue.obj (v : KPValue) : PyObj := PyObj.member v

/-- `KPValue.__and__` (criteria.py lines 16-21): the conditions compare
`self.value` / `other.value` against the member objects `self.FALSE` and
`self.UNKNOWN`. -/
def KPValue.and (self other : KPValue) : KPValue :=
if pyEq self.value (KPValue.obj KPValue.FALSE) || pyEq other.value (KPValue.obj KPValue.FALSE) then
  KPValue.FALSE
else if pyEq self.value (KPValue.obj KPValue.UNKNOWN) || pyEq other.value (KPValue.obj KPValue.UNKNOWN) then
  KPValue.UNKNOWN
else
  KPValue.TRUE

/-- `KPValue.__or__` (criteria.py lines 23-28). -/
def KPValue.or (self other : KPValue) : KPValue :=
if pyEq self.value (KPValue.obj KPValue.TRUE) || pyEq other.value (KPValue.obj KPValue.TRUE) then
  KPValue.TRUE
else if pyEq self.value (KPValue.obj KPValue.UNKNOWN) || pyEq other.value (KPValue.obj KPValue.UNKNOWN) then
  KPValue.UNKNOWN
else
  KPValue.FALSE

/-- `KPValue.__neg__` (criteria.py lines 30-35). -/
def KPValue.neg (self : KPValue) : KPValue :=
if pyEq self.value (KPValue.obj KPValue.TRUE) then
  KPValue.FALSE
else if pyEq self.value (KPValue.obj KPValue.FALSE) then
  KPValue.TRUE
else
  KPValue.UNKNOWN

/-- `And.eval` (criteria.py lines 316-318): `self.left.eval() and
self.right.eval()` uses the Python `and` keyword: it returns the left
operand if it is falsy and the right operand otherwise. The arguments are
the values of `left.eval()` and `right.eval()`. -/
def And.eval (left right : KPValue) : KPValue :=
if pyTruthy left.obj then right else left

/-- `Or.eval` (criteria.py lines 321-323): the Python `or` keyword returns
the left operand if it is truthy and the right operand otherwise. -/
def Or.eval (left right : KPValue) : KPValue :=
if pyTruthy left.obj then left else right

/-- `Not.eval` (criteria.py lines 326-331): `return self.evaluable.eval()`,
the child's value is returned unchanged. The argument is the value of
`self.evaluable.eval()`. -/
def Not.eval (child : KPValue) : KPValue := child

/-- `ValidationConstraint.eval` (criteria.py lines 185-187):
`self.inner.eval() if self.eval_cond() == KPValue.TRUE else KPValue.UNKNOWN`,
applied to the values of `self.eval_cond()` and `self.inner.eval()`. -/
def ValidationConstraint.eval (eval_cond inner : KPValue) : KPValue :=
if pyEq eval_cond.obj (KPValue.obj KPValue.TRUE) then inner else KPValue.UNKNOWN

/-- `SCArea.eval` (criteria.py lines 91-93): `return
self.polygon.contains((x, y))` hands back the raw result of the shapely
containment test, a Python bool, without converting it to a `KPValue`.
The argument is the containment result. -/
def SCArea.eval (containsResult : Bool) : PyObj := PyObj.pyBool containsResult

/-- `VCTime.eval_cond` (criteria.py lines 258-266): when the underlying
BeamNGpy instance is a `DBBeamNGpy`, it compares
`self.from_tick <= bng.current_tick <= self.to_tick`; otherwise it issues
a warning and falls off the end of the function, so Python returns `None`. -/
def VCTime.eval_cond (isDBBeamNGpy : Bool) (current_tick from_tick to_tick : Int) : PyObj :=
if isDBBeamNGpy then
  if from_tick ≤ current_tick ∧ current_tick ≤ to_tick then
    KPValue.obj KPValue.TRUE
  else
    KPValue.obj KPValue.FALSE
else
  PyObj.pyNone

/-- The protobuf `TestResult.Result` values used by the scheduler
(src/simnode/sim_controller.py). -/
inductive TCResult
| SUCCEEDED
| FAILED
| SKIPPED
| UNKNOWN
deriving DecidableEq, Repr

/-- What one verification cycle observes: the `isRunning` reply of the sim
node and the precondition/failure/success triple returned by the `verify`
action (src/simnode/sim_controller.py, lines 434-440). -/
structure CycleObs where
  isRunning : Bool
  precondition : KPValue
  failure : KPValue
  success : KPValue

/-- `_run_verification_cycles` (src/simnode/sim_controller.py, lines
430-463), with the wall-clock bound `(datetime.now() - test_start_time)
.seconds < TIMEOUT` rendered as a budget of remaining cycles and the
per-cycle observations given as a stream indexed by cycle number.
`test_case_result` starts as `UNKNOWN`; the loop body adjudicates
precondition, failure and success in that order (lines 441-446), and when
none of them decides, it requests AI control, stores the cycle and steps
the simulator (lines 447-460) and iterates. When `isRunning` is false the
loop breaks with the result still `UNKNOWN` (lines 461-462); when the
budget is exhausted the while condition fails and the queued result is the
initial `UNKNOWN`. -/
def runVerificationCycles (obs : Nat → CycleObs) : Nat → Nat → TCResult
| 0, _ => TCResult.UNKNOWN
| fuel + 1, i =>
  if (obs i).isRunning then
    if (obs i).precondition = KPValue.FALSE then TCResult.SKIPPED
    else if (obs i).failure = KPValue.TRUE then TCResult.FAILED
    else if (obs i).success = KPValue.TRUE then TCResult.SUCCEEDED
    else runVerificationCycles obs fuel (i + 1)
  else TCResult.UNKNOWN

/-- `_run_runtime_verification` (src/simnode/sim_controller.py, lines
474-481): it starts `_run_verification_cycles` on a thread from cycle 0 and
delivers the single value the thread puts into the result queue. -/
def runRuntimeVerification (obs : Nat → CycleObs) (timeoutCycles : Nat) : TCResult :=
runVerificationCycles obs timeoutCycles 0

/-- The `AIStatus` enum (src/dbtypes/__init__.py). -/
inductive AIStatus
| READY
| WAITING
| REQUESTED
deriving DecidableEq, Repr

/-- The state of one `(SimulationID, VehicleID)` entry of the
`_registered_ais` map in src/start.py: missing, or holding an `AIStatus`. -/
inductive AIEntry
| absent
| status (s : AIStatus)
deriving DecidableEq, Repr

/-- The write `_registered_ais[sid.sid][vid.vid] = AIStatus.WAITING` of
`_wait_for_simulator_request` (src/start.py, lines 219-221), which creates
the entry if it is absent and sets it to `WAITING` unconditionally. -/
def waitForSimulatorRequestSet (_ : AIEntry) : AIEntry := AIEntry.status AIStatus.WAITING

/-- The exit condition of the spin loop at the head of `_request_ai_for`
(src/start.py, lines 121-124): the entry exists and its value is
`AIStatus.WAITING`. -/
def requestAiGuard (e : AIEntry) : Bool := e == AIEntry.status AIStatus.WAITING

/-- The grant of `_request_ai_for` (src/start.py, lines 121-125): it spins
until `requestAiGuard` holds and only then performs
`_registered_ais[sid.sid][vid.vid] = AIStatus.REQUESTED`; while the guard
is false the entry is not written. -/
def requestAiFor (e : AIEntry) : AIEntry :=
if requestAiGuard e then AIEntry.status AIStatus.REQUESTED else e

/-- Entry states reachable from the initial absent entry by the two
operations that write the `_registered_ais` map. -/
inductive ReachableEntry : AIEntry → Prop
| init : ReachableEntry AIEntry.absent
| wait {e : AIEntry} : ReachableEntry e → ReachableEntry (waitForSimulatorRequestSet e)
| grant {e : AIEntry} : ReachableEntry e → ReachableEntry (requestAiFor e)

/-- Whether a byte is a UTF-8 continuation byte (0x80 to 0xBF). -/
def utf8Cont (b : Nat) : Bool := decide (0x80 ≤ b) && decide (b ≤ 0xBF)

/-- Strict UTF-8 decoding of a byte sequence into characters, the
behaviour of Python's `bytes.decode()` with the default codec: one-byte
ASCII, two-byte leads 0xC2-0xDF, three-byte leads 0xE0-0xEF excluding
overlong forms (0xE0 requires a second byte of at least 0xA0) and UTF-16
surrogates (0xED requires a second byte of at most 0x9F), four-byte leads
0xF0-0xF4 excluding overlong forms (0xF0 requires a second byte of at
least 0x90) and code points past U+10FFFF (0xF4 requires a second byte of
at most 0x8F); every other shape — stray continuation bytes, the overlong
leads 0xC0/0xC1, leads past 0xF4, truncated sequences — raises
`UnicodeDecodeError`, modelled as `none`. -/
def pyDecodeUtf8Chars : List Nat → Option (List Char)
| [] => some []
| b0 :: rest =>
  if b0 < 0x80 then
    match pyDecodeUtf8Chars rest with
    | some cs => some (Char.ofNat b0 :: cs)
    | none => none
  else if 0xC2 ≤ b0 ∧ b0 ≤ 0xDF then
    match rest with
    | b1 :: rest1 =>
      if utf8Cont b1 then
        match pyDecodeUtf8Chars rest1 with
        | some cs => some (Char.ofNat ((b0 - 0xC0) * 0x40 + (b1 - 0x80)) :: cs)
        | none => none
      else none
    | [] => none
  else if 0xE0 ≤ b0 ∧ b0 ≤ 0xEF then
    match rest with
    | b1 :: b2 :: rest2 =>
      if (utf8Cont b1 && utf8Cont b2)
          && (decide (b0 ≠ 0xE0) || decide (0xA0 ≤ b1))
          && (decide (b0 ≠ 0xED) || decide (b1 ≤ 0x9F)) then
        match pyDecodeUtf8Chars rest2 with
        | some cs =>
          some (Char.ofNat ((b0 - 0xE0) * 0x1000 + (b1 - 0x80) * 0x40 + (b2 - 0x80)) :: cs)
        | none => none
      else none
    | _ => none
  else if 0xF0 ≤ b0 ∧ b0 ≤ 0xF4 then
    match rest with
    | b1 :: b2 :: b3 :: rest3 =>
      if (utf8Cont b1 && utf8Cont b2 && utf8Cont b3)
          && (decide (b0 ≠ 0xF0) || decide (0x90 ≤ b1))
          && (decide (b0 ≠ 0xF4) || decide (b1 ≤ 0x8F)) then
        match pyDecodeUtf8Chars rest3 with
        | some cs =>
          some (Char.ofNat
            ((b0 - 0xF0) * 0x40000 + (b1 - 0x80) * 0x1000 + (b2 - 0x80) * 0x40 + (b3 - 0x80)) :: cs)
        | none => none
      else none
    | _ => none
  else none

/-- Python's `bytes.decode()` as used by `action.decode()` in the handlers
of src/start.py: the decoded string, or `none` for the raised
`UnicodeDecodeError`. -/
def pyDecodeUtf8 (bs : List Nat) : Option String :=
match pyDecodeUtf8Chars bs with
| some cs => some (String.mk cs)
| none => none

/-- The byte values of an ASCII string literal, the form of the
`b"..."` action-token constants the handlers compare against. -/
def asciiBytes (s : String) : List Nat := s.data.map Char.toNat

/-- The exceptions a handler body can raise before returning. -/
inductive PyError
| unicodeDecodeError
deriving DecidableEq, Repr

/-- Outcomes of `_handle_main_app_message` (src/start.py, lines 296-322):
one tag per known action branch, and the error `Void` built in the final
else branch, carrying its message. -/
inductive MainAppResult
| runTestsResult
| statusResult
| waitForSimulatorRequestResult
| controlResult
| unknownAction (message : String)
deriving DecidableEq, Repr

/-- The action dispatch of `_handle_main_app_message` (src/start.py, lines
296-322). The `action` parameter is the raw bytes of the first message
segment; the known branches compare it against the byte constants
`b"runTests"` and so on, and the final else branch interpolates
`action.decode()` into its message (line 318), which raises
`UnicodeDecodeError` when the token is not valid UTF-8. -/
def handleMainAppMessage (action : List Nat) : Except PyError MainAppResult :=
if action = asciiBytes "runTests" then Except.ok MainAppResult.runTestsResult
else if action = asciiBytes "status" then Except.ok MainAppResult.statusResult
else if action = asciiBytes "waitForSimulatorRequest" then
  Except.ok MainAppResult.waitForSimulatorRequestResult
else if action = asciiBytes "control" then Except.ok MainAppResult.controlResult
else
  match pyDecodeUtf8 action with
  | some s => Except.ok (MainAppResult.unknownAction ("The action \"" ++ s ++ "\" is unknown."))
  | none => Except.error PyError.unicodeDecodeError

/-- Outcomes of the `_handle_message` closure inside
`_handle_simulation_message` (src/start.py, lines 136-175). -/
inductive SimMsgResult
| vidsResult
| pollSensorsResult
| verifyResult
| requestAiForResult
| stepsResult
| stopResult
| unknownAction (message : String)
deriving DecidableEq, Repr

/-- The action dispatch of `_handle_simulation_message` (src/start.py,
lines 136-175), with the same raw-bytes comparisons and the same
`action.decode()` in the unknown-action branch (line 171). -/
def handleSimulationMessage (action : List Nat) : Except PyError SimMsgResult :=
if action = asciiBytes "vids" then Except.ok SimMsgResult.vidsResult
else if action = asciiBytes "pollSensors" then Except.ok SimMsgResult.pollSensorsResult
else if action = asciiBytes "verify" then Except.ok SimMsgResult.verifyResult
else if action = asciiBytes "requestAiFor" then Except.ok SimMsgResult.requestAiForResult
else if action = asciiBytes "steps" then Except.ok SimMsgResult.stepsResult
else if action = asciiBytes "stop" then Except.ok SimMsgResult.stopResult
else
  match pyDecodeUtf8 action with
  | some s => Except.ok (SimMsgResult.unknownAction ("The action \"" ++ s ++ "\" is unknown."))
  | none => Except.error PyError.unicodeDecodeError

/-- The fields stored by `SCPosition.__init__` (criteria.py, lines 65-74).
Python float parameters are modelled as rationals. -/
structure SCPosition where
  participant : String
  x : ℚ
  y : ℚ
  tolerance : ℚ
deriving DecidableEq, Repr

/-- `SCPosition.__init__` (criteria.py, lines 68-74): raises `ValueError`
when `tolerance < 0`, otherwise stores the parameters unchanged. -/
def SCPosition.init (participant : String) (x y tolerance : ℚ) : Except String SCPosition :=
if tolerance < 0 then Except.error "The tolerance must be non negative."
else Except.ok (SCPosition.mk participant x y tolerance)

/-- The fields stored by `SCSpeed.__init__` (criteria.py, lines 115-122). -/
structure SCSpeed where
  participant : String
  speed_limit : ℚ
deriving DecidableEq, Repr

/-- `SCSpeed.__init__` (criteria.py, lines 118-122): raises `ValueError`
when `speed_limit < 0`, otherwise stores the parameters unchanged. -/
def SCSpeed.init (participant : String) (speed_limit : ℚ) : Except String SCSpeed :=
if speed_limit < 0 then Except.error "Speed limits must be non negative."
else Except.ok (SCSpeed.mk participant speed_limit)

/-- The fields stored by `SCDistance.__init__` (criteria.py, lines
143-152). -/
structure SCDistance where
  participant : String
  other_participant : String
  max_distance : ℚ
deriving DecidableEq, Repr

/-- `SCDistance.__init__` (criteria.py, lines 146-152): raises `ValueError`
when `max_distance < 0`, otherwise stores the parameters unchanged. -/
def SCDistance.init (participant other_participant : String) (max_distance : ℚ) :
    Except String SCDistance :=
if max_distance < 0 then Except.error "The maximum allowed distance has to be non negative."
else Except.ok (SCDistance.mk participant other_participant max_distance)

/-- Claim C1: the spec requires Kleene conjunction (FALSE if either operand
is FALSE, else UNKNOWN if either is UNKNOWN, else TRUE). The code behaves
differently: `KPValue.__and__` compares `self.value` (a tuple or `None`)
against enum member objects, a comparison that is always false, so it
returns TRUE for every pair of operands — in particular TRUE at the
failing input a = FALSE, b = FALSE where the claim demands FALSE — and the
`And` node never calls `__and__`: its `eval` applies the Python `and`
keyword to truthy enum members and hence always returns its right operand,
e.g. TRUE for left = FALSE, right = TRUE. -/
theorem and_operator_bug :
    KPValue.and KPValue.FALSE KPValue.FALSE = KPValue.TRUE
    ∧ And.eval KPValue.FALSE KPValue.TRUE = KPValue.TRUE
    ∧ (∀ a b : KPValue, KPValue.and a b = KPValue.TRUE)
    ∧ (∀ a b : KPValue, And.eval a b = b) :=
  ⟨rfl, rfl, fun a b => by cases a <;> cases b <;> rfl, fun _ _ => rfl⟩

/-- Claim C2: the spec requires Kleene disjunction (TRUE if either operand
is TRUE, else UNKNOWN if either is UNKNOWN, else FALSE). The code's
`KPValue.__or__` compares enum values against enum member objects, which
is always false, so it returns FALSE for every pair of operands — in
particular FALSE at the failing input a = TRUE, b = TRUE where the claim
demands TRUE — and the `Or` node's `eval` applies the Python `or` keyword
to truthy enum members and hence always returns its left operand, e.g.
FALSE for left = FALSE, right = TRUE. -/
theorem or_operator_bug :
    KPValue.or KPValue.TRUE KPValue.TRUE = KPValue.FALSE
    ∧ Or.eval KPValue.FALSE KPValue.TRUE = KPValue.FALSE
    ∧ (∀ a b : KPValue, KPValue.or a b = KPValue.FALSE)
    ∧ (∀ a b : KPValue, Or.eval a b = a) :=
  ⟨rfl, rfl, fun a b => by cases a <;> cases b <;> rfl, fun _ _ => rfl⟩

/-- Claim C3: the spec requires negation to swap TRUE and FALSE and fix
UNKNOWN, with NOT(NOT(a)) = a. The code's `KPValue.__neg__` compares enum
values against enum member objects, which is always false, so it returns
UNKNOWN for every operand — in particular UNKNOWN at the failing input
a = TRUE where the claim demands FALSE, and NOT(NOT(TRUE)) = UNKNOWN, not
TRUE — while the `Not` node's `eval` returns its child's value unchanged,
so it yields TRUE at a = TRUE where the claim demands FALSE. -/
theorem neg_operator_bug :
    KPValue.neg KPValue.TRUE = KPValue.UNKNOWN
    ∧ Not.eval KPValue.TRUE = KPValue.TRUE
    ∧ KPValue.neg (KPValue.neg KPValue.TRUE) = KPValue.UNKNOWN
    ∧ (∀ a : KPValue, KPValue.neg a = KPValue.UNKNOWN)
    ∧ (∀ a : KPValue, Not.eval a = a) :=
  ⟨rfl, rfl, rfl, fun a => by cases a <;> rfl, fun _ => rfl⟩

/-- Claim C4: a validation constraint with guard value g and inner value v
evaluates to v when g is TRUE (for every v in the three-valued algebra)
and to UNKNOWN when g is FALSE or UNKNOWN, regardless of v. -/
theorem validation_constraint_guard :
    ∀ v : KPValue,
      ValidationConstraint.eval KPValue.TRUE v = v
      ∧ ValidationConstraint.eval KPValue.FALSE v = KPValue.UNKNOWN
      ∧ ValidationConstraint.eval KPValue.UNKNOWN v = KPValue.UNKNOWN :=
  fun _ => ⟨rfl, rfl, rfl⟩

/-- Claim C5: in a verification cycle whose simulator reports it is
running, the loop adjudicates in priority order: precondition FALSE gives
SKIPPED; otherwise failure TRUE gives FAILED; otherwise success TRUE gives
SUCCEEDED; otherwise no terminal result is produced this cycle and the
loop continues with the next cycle on the remaining budget. -/
theorem verification_cycle_priority (obs : Nat → CycleObs) (fuel i : Nat)
    (hrun : (obs i).isRunning = true) :
    ((obs i).precondition = KPValue.FALSE →
      runVerificationCycles obs (fuel + 1) i = TCResult.SKIPPED)
    ∧ ((obs i).precondition ≠ KPValue.FALSE → (obs i).failure = KPValue.TRUE →
      runVerificationCycles obs (fuel + 1) i = TCResult.FAILED)
    ∧ ((obs i).precondition ≠ KPValue.FALSE → (obs i).failure ≠ KPValue.TRUE →
      (obs i).success = KPValue.TRUE →
      runVerificationCycles obs (fuel + 1) i = TCResult.SUCCEEDED)
    ∧ ((obs i).precondition ≠ KPValue.FALSE → (obs i).failure ≠ KPValue.TRUE →
      (obs i).success ≠ KPValue.TRUE →
      runVerificationCycles obs (fuel + 1) i = runVerificationCycles obs fuel (i + 1)) := by
  refine ⟨?_, ?_, ?_, ?_⟩
  · intro h1
    simp [runVerificationCycles, hrun, h1]
  · intro h1 h2
    simp [runVerificationCycles, hrun, h1, h2]
  · intro h1 h2 h3
    simp [runVerificationCycles, hrun, h1, h2, h3]
  · intro h1 h2 h3
    simp [runVerificationCycles, hrun, h1, h2, h3]

/-- Witness for claim C5: a cycle observing a running simulator whose
precondition is FALSE makes the loop deliver SKIPPED. -/
theorem verification_cycle_priority_spot :
    runVerificationCycles
      (fun _ => CycleObs.mk true KPValue.FALSE KPValue.UNKNOWN KPValue.UNKNOWN) 1 0
      = TCResult.SKIPPED :=
  (verification_cycle_priority
    (fun _ => CycleObs.mk true KPValue.FALSE KPValue.UNKNOWN KPValue.UNKNOWN) 0 0 rfl).1 rfl

/-- Claim C6: when no cycle's observation is definitive (precondition never
FALSE, failure never TRUE, success never TRUE), the verification loop
delivers UNKNOWN for every cycle budget — never SUCCEEDED, FAILED or
SKIPPED — and so does `_run_runtime_verification`, which hands on the
loop's queued result. -/
theorem indeterminate_run_yields_unknown (obs : Nat → CycleObs) (fuel i : Nat)
    (h : ∀ j, (obs j).precondition ≠ KPValue.FALSE ∧ (obs j).failure ≠ KPValue.TRUE
      ∧ (obs j).success ≠ KPValue.TRUE) :
    runVerificationCycles obs fuel i = TCResult.UNKNOWN
    ∧ runRuntimeVerification obs fuel = TCResult.UNKNOWN := by
  have main : ∀ n k, runVerificationCycles obs n k = TCResult.UNKNOWN := by
    intro n
    induction n with
    | zero => intro k; rfl
    | succ m ih =>
      intro k
      obtain ⟨h1, h2, h3⟩ := h k
      by_cases hr : (obs k).isRunning = true
      · simp [runVerificationCycles, hr, h1, h2, h3, ih]
      · simp [runVerificationCycles, hr]
  exact ⟨main fuel i, main fuel 0⟩

/-- Witness for claim C6: with all three expressions fixed to UNKNOWN the
loop's result after a two-cycle budget is UNKNOWN. -/
theorem indeterminate_run_spot :
    runVerificationCycles
      (fun _ => CycleObs.mk true KPValue.UNKNOWN KPValue.UNKNOWN KPValue.UNKNOWN) 2 0
      = TCResult.UNKNOWN
    ∧ runRuntimeVerification
      (fun _ => CycleObs.mk true KPValue.UNKNOWN KPValue.UNKNOWN KPValue.UNKNOWN) 2
      = TCResult.UNKNOWN :=
  indeterminate_run_yields_unknown _ 2 0 (fun _ => ⟨by decide, by decide, by decide⟩)

/-- Claim C7: the grant operation writes REQUESTED only when the entry
currently holds WAITING (so a second grant while the entry is REQUESTED is
blocked and does not double-grant), the wait operation always sets the
entry back to WAITING, the sequence wait-grant-wait from an absent entry
observes WAITING, REQUESTED, WAITING, and no reachable entry ever holds
the unused READY status, so per pair the only in-flight grant is the
single REQUESTED value produced from WAITING. -/
theorem ai_handshake_protocol :
    (∀ e : AIEntry, requestAiFor e ≠ e →
      e = AIEntry.status AIStatus.WAITING
      ∧ requestAiFor e = AIEntry.status AIStatus.REQUESTED)
    ∧ (∀ e : AIEntry, waitForSimulatorRequestSet e = AIEntry.status AIStatus.WAITING)
    ∧ waitForSimulatorRequestSet AIEntry.absent = AIEntry.status AIStatus.WAITING
    ∧ requestAiFor (waitForSimulatorRequestSet AIEntry.absent) = AIEntry.status AIStatus.REQUESTED
    ∧ waitForSimulatorRequestSet (requestAiFor (waitForSimulatorRequestSet AIEntry.absent))
      = AIEntry.status AIStatus.WAITING
    ∧ requestAiGuard (AIEntry.status AIStatus.REQUESTED) = false
    ∧ requestAiFor (AIEntry.status AIStatus.REQUESTED) = AIEntry.status AIStatus.REQUESTED
    ∧ (∀ e : AIEntry, ReachableEntry e → e ≠ AIEntry.status AIStatus.READY) := by
  refine ⟨?_, fun _ => rfl, rfl, rfl, rfl, rfl, rfl, ?_⟩
  · intro e hne
    cases e with
    | absent => exact absurd rfl hne
    | status s =>
      cases s with
      | READY => exact absurd rfl hne
      | WAITING => exact ⟨rfl, rfl⟩
      | REQUESTED => exact absurd rfl hne
  · intro e h
    induction h with
    | init => exact fun hcon => AIEntry.noConfusion hcon
    | wait _ _ => exact fun hcon => AIStatus.noConfusion (AIEntry.status.inj hcon)
    | @grant e _ ih =>
      by_cases hg : requestAiGuard e = true
      · simp [requestAiFor, hg]
      · simpa [requestAiFor, hg] using ih

/-- Witness for claim C7: a grant performed on a WAITING entry changes it,
and the change is exactly the WAITING-to-REQUESTED transition. -/
theorem ai_handshake_protocol_spot :
    requestAiFor (AIEntry.status AIStatus.WAITING) ≠ AIEntry.status AIStatus.WAITING
    ∧ (AIEntry.status AIStatus.WAITING = AIEntry.status AIStatus.WAITING
      ∧ requestAiFor (AIEntry.status AIStatus.WAITING) = AIEntry.status AIStatus.REQUESTED) :=
  ⟨by decide, ai_handshake_protocol.1 (AIEntry.status AIStatus.WAITING) (by decide)⟩

/-- Claim C8: the spec states every criteria node is total over the
three-valued algebra, but the code is not: `SCArea.eval` returns the raw
Python bool of the shapely containment test, which is not a `KPValue`
member, and `VCTime.eval_cond` on a scenario whose BeamNGpy instance is
not a `DBBeamNGpy` falls off the end of the function and returns `None`,
also not a `KPValue` member. -/
theorem eval_outside_kpvalue :
    SCArea.eval true = PyObj.pyBool true
    ∧ (∀ v : KPValue, KPValue.obj v ≠ PyObj.pyBool true)
    ∧ VCTime.eval_cond false 0 0 0 = PyObj.pyNone
    ∧ (∀ v : KPValue, KPValue.obj v ≠ PyObj.pyNone) :=
  ⟨rfl, fun _ h => PyObj.noConfusion h, rfl, fun _ h => PyObj.noConfusion h⟩

/-- Claim C9 (counterexample): the single byte 0xFF is outside both
handlers' vocabularies, yet neither handler returns an error payload for
it: the unknown-action branch's `action.decode()` raises
`UnicodeDecodeError`, so the claim as stated fails for this inbound
message. -/
theorem unknown_action_decode_counterexample :
    handleMainAppMessage [0xFF] = Except.error PyError.unicodeDecodeError
    ∧ handleSimulationMessage [0xFF] = Except.error PyError.unicodeDecodeError
    ∧ [0xFF] ≠ asciiBytes "runTests"
    ∧ [0xFF] ≠ asciiBytes "status"
    ∧ [0xFF] ≠ asciiBytes "waitForSimulatorRequest"
    ∧ [0xFF] ≠ asciiBytes "control"
    ∧ [0xFF] ≠ asciiBytes "vids"
    ∧ [0xFF] ≠ asciiBytes "pollSensors"
    ∧ [0xFF] ≠ asciiBytes "verify"
    ∧ [0xFF] ≠ asciiBytes "requestAiFor"
    ∧ [0xFF] ≠ asciiBytes "steps"
    ∧ [0xFF] ≠ asciiBytes "stop" :=
  ⟨rfl, rfl, by decide, by decide, by decide, by decide, by decide, by decide, by decide,
   by decide, by decide, by decide⟩

/-- Claim C9 as amended: for every inbound message whose action token is
outside the handler's vocabulary and decodes as UTF-8, the handler
returns an error payload whose message names the decoded token rather
than raising, for both the main-application handler and the
per-simulation handler, and known actions are dispatched to their
branches; an unknown token that is not valid UTF-8 instead raises
`UnicodeDecodeError` from `action.decode()`. -/
theorem unknown_action_error_payload (action : List Nat) (s : String)
    (hmain : action ∉ [asciiBytes "runTests", asciiBytes "status",
      asciiBytes "waitForSimulatorRequest", asciiBytes "control"])
    (hsim : action ∉ [asciiBytes "vids", asciiBytes "pollSensors", asciiBytes "verify",
      asciiBytes "requestAiFor", asciiBytes "steps", asciiBytes "stop"])
    (hdec : pyDecodeUtf8 action = some s) :
    handleMainAppMessage action
      = Except.ok (MainAppResult.unknownAction ("The action \"" ++ s ++ "\" is unknown."))
    ∧ handleSimulationMessage action
      = Except.ok (SimMsgResult.unknownAction ("The action \"" ++ s ++ "\" is unknown."))
    ∧ (pyDecodeUtf8 action = none → handleMainAppMessage action
      = Except.error PyError.unicodeDecodeError)
    ∧ handleMainAppMessage (asciiBytes "status") = Except.ok MainAppResult.statusResult
    ∧ handleSimulationMessage (asciiBytes "verify") = Except.ok SimMsgResult.verifyResult := by
  simp only [List.mem_cons, List.not_mem_nil, or_false, not_or] at hmain hsim
  obtain ⟨m1, m2, m3, m4⟩ := hmain
  obtain ⟨s1, s2, s3, s4, s5, s6⟩ := hsim
  refine ⟨?_, ?_, ?_, rfl, rfl⟩
  · simp [handleMainAppMessage, m1, m2, m3, m4, hdec]
  · simp [handleSimulationMessage, s1, s2, s3, s4, s5, s6, hdec]
  · intro hnone
    rw [hnone] at hdec
    exact Option.noConfusion hdec

/-- Witness for amended claim C9: the unrecognized but UTF-8-decodable
token fly produces the returned error payloads that name it. -/
theorem unknown_action_error_payload_spot :
    pyDecodeUtf8 (asciiBytes "fly") = some "fly"
    ∧ handleMainAppMessage (asciiBytes "fly")
      = Except.ok (MainAppResult.unknownAction ("The action \"" ++ "fly" ++ "\" is unknown."))
    ∧ handleSimulationMessage (asciiBytes "fly")
      = Except.ok (SimMsgResult.unknownAction ("The action \"" ++ "fly" ++ "\" is unknown.")) :=
  ⟨by decide,
   (unknown_action_error_payload (asciiBytes "fly") "fly" (by decide) (by decide) (by decide)).1,
   (unknown_action_error_payload (asciiBytes "fly") "fly" (by decide) (by decide) (by decide)).2.1⟩

/-- Claim C10: each numeric state-condition constructor raises `ValueError`
exactly when its numeric bound is negative — `SCPosition` for
tolerance < 0, `SCSpeed` for speed_limit < 0, `SCDistance` for
max_distance < 0 — and for a non-negative bound the construction succeeds
and stores the given parameters unchanged. -/
theorem state_condition_init_bounds :
    ∀ (p op : String) (x y t sl md : ℚ),
      ((∃ msg, SCPosition.init p x y t = Except.error msg) ↔ t < 0)
      ∧ (0 ≤ t → SCPosition.init p x y t = Except.ok (SCPosition.mk p x y t))
      ∧ ((∃ msg, SCSpeed.init p sl = Except.error msg) ↔ sl < 0)
      ∧ (0 ≤ sl → SCSpeed.init p sl = Except.ok (SCSpeed.mk p sl))
      ∧ ((∃ msg, SCDistance.init p op md = Except.error msg) ↔ md < 0)
      ∧ (0 ≤ md → SCDistance.init p op md = Except.ok (SCDistance.mk p op md)) := by
  intro p op x y t sl md
  refine ⟨⟨?_, ?_⟩, ?_, ⟨?_, ?_⟩, ?_, ⟨?_, ?_⟩, ?_⟩
  · rintro ⟨msg, hmsg⟩
    by_contra hnot
    simp [SCPosition.init, hnot] at hmsg
  · intro hlt
    exact ⟨"The tolerance must be non negative.", by simp [SCPosition.init, hlt]⟩
  · intro h0
    simp [SCPosition.init, not_lt.mpr h0]
  · rintro ⟨msg, hmsg⟩
    by_contra hnot
    simp [SCSpeed.init, hnot] at hmsg
  · intro hlt
    exact ⟨"Speed limits must be non negative.", by simp [SCSpeed.init, hlt]⟩
  · intro h0
    simp [SCSpeed.init, not_lt.mpr h0]
  · rintro ⟨msg, hmsg⟩
    by_contra hnot
    simp [SCDistance.init, hnot] at hmsg
  · intro hlt
    exact ⟨"The maximum allowed distance has to be non negative.", by simp [SCDistance.init, hlt]⟩
  · intro h0
    simp [SCDistance.init, not_lt.mpr h0]

/-- Witness for claim C10: with non-negative bounds the constructions
succeed and store the parameters, e.g. a tolerance of 1. -/
theorem state_condition_init_spot :
    (0 : ℚ) ≤ 1
    ∧ SCPosition.init "ego" 2 3 1 = Except.ok (SCPosition.mk "ego" 2 3 1) := by
  refine ⟨by norm_num, ?_⟩
  exact (state_condition_init_bounds "ego" "other" 2 3 1 1 1).2.1 (by norm_num)

end DriveBuild
